import Mathlib

/-!
Verification of the s2n TLS library specification against a shallow Lean
embedding of the code.  Each section embeds one part of the source
(src/error/s2n_errno.c, src/utils/s2n_asn1_time.c, src/tls/s2n_server_extensions.c,
src/crypto/s2n_tls13_keys.c) or, where the implementation file is absent from
the source tree and only its unit tests / CBMC harnesses are available, a model
built from the specification text and pinned against those tests.
-/

namespace S2N

/-! ## Error translation (src/error/s2n_errno.c) -/

/-- Modelled from the spec: the header error/s2n_errno.h is not in the source
tree, so the numeric values of the S2N_ERR_* codes are unknown; the spec only
requires them to be distinct integers.  We assign them consecutively in the
order the translation table in src/error/s2n_errno.c lists them.  The claims
about s2n_strerror depend only on table membership, not on the values. -/
def EN : List (Int × String) := [
  (0, "no error"),
  (1, "underlying I/O operation failed, check system errno"),
  (2, "underlying I/O operation would block"),
  (3, "error initializing encryption key"),
  (4, "error encrypting data"),
  (5, "error decrypting data"),
  (6, "error calling madvise"),
  (7, "error allocating memory"),
  (8, "error calling mlock"),
  (9, "error calling munlock"),
  (10, "error calling fstat"),
  (11, "error calling open"),
  (12, "error calling mmap"),
  (13, "NULL pointer encountered"),
  (14, "connection is closed"),
  (15, "a safety check failed"),
  (16, "s2n not initialized"),
  (17, "s2n entropy not initialized"),
  (18, "error opening urandom"),
  (19, "cannot resize a static stuffer"),
  (20, "cannot resize a tainted stuffer"),
  (21, "stuffer is out of data"),
  (22, "stuffer is full"),
  (23, "invalid base64 encountered"),
  (24, "invalid PEM encountered"),
  (25, "error copying Diffie-Hellman parameters"),
  (26, "error copying Diffie-Hellman public key"),
  (27, "error generating Diffie-Hellman parameters"),
  (28, "error creating Diffie-Hellman parameters"),
  (29, "error serializing Diffie-Hellman parameters"),
  (30, "error computing Diffie-Hellman shared secret"),
  (31, "error writing Diffie-Hellman public key"),
  (32, "error signing Diffie-Hellman values"),
  (33, "Diffie-Hellman parameters are too small"),
  (34, "Diffie-Hellman parameter check failed"),
  (35, "invalid PKCS3 encountered"),
  (36, "failed to create hash digest"),
  (37, "error initializing hash"),
  (38, "invalid hash algorithm"),
  (39, "error updating hash"),
  (40, "invalid HMAC algorithm"),
  (41, "invalid HKDF output size"),
  (42, "invalid prf hash algorithm"),
  (43, "size mismatch"),
  (44, "error decoding certificate"),
  (45, "error decoding private key"),
  (46, "public and private key do not match"),
  (47, "no memory"),
  (48, "error signing data"),
  (49, "error verifying signature"),
  (50, "TLS alert is already pending"),
  (51, "TLS alert received"),
  (52, "Failed CBC verification"),
  (53, "Cipher is not supported"),
  (54, "Bad message encountered"),
  (55, "Invalid signature algorithm"),
  (56, "No certificate in PEM"),
  (57, "No Alert present"),
  (58, "operation not allowed in client mode"),
  (59, "server name is too long"),
  (60, "client connections not allowed"),
  (61, "Invalid handshake state encountered"),
  (62, "TLS fallback detected"),
  (63, "Invalid Cipher Preferences version"),
  (64, "Application protocol name is too long"),
  (65, "No supported application protocol to negotiate"),
  (66, "Error using Deterministic Random Bit Generator"),
  (67, "Request for too much entropy"),
  (68, "Failed to generate an ECDHE key"),
  (69, "Error computing ECDHE shared secret"),
  (70, "Unsupported EC curve was presented during an ECDHE handshake"),
  (71, "Error serializing ECDHE public"),
  (72, "s2n_shutdown() called while paused"),
  (73, "Peer closed before sending their close_notify"),
  (74, "Non alert record received during s2n_shutdown()"),
  (75, "renegotiation_info should be empty"),
  (76, "Retried s2n_send() size is invalid"),
  (77, "Error calling RSA_check_key()"),
  (78, "Unknown cipher type used"),
  (79, "Duplicate map key inserted"),
  (80, "Attempt to update an immutable map"),
  (81, "Attempt to lookup a mutable map"),
  (82, "error calling EVP_CIPHER_CTX_ctrl for composite cbc cipher"),
  (83, "TLS record limit reached"),
  (84, "Attempt to set connection cork management on unmanaged IO"),
  (85, "TLS extension not recognized"),
  (86, "SCT list is invalid"),
  (87, "OCSP response is invalid"),
  (88, "Invalid AEAD nonce type"),
  (89, "Unimplemented feature"),
  (90, "Certificate is untrusted"),
  (91, "Certificate Type is unsupported"),
  (92, "handshake was cancelled"),
  (93, "invalid Max Fragmentation Length encountered"),
  (94, "Negotiated Max Fragmentation Length from server does not match the requested length by client")]

/-- ASCII lower-casing of one character, as used by strcasecmp. -/
def asciiLower (c : Char) : Char :=
  if 65 ≤ c.toNat ∧ c.toNat ≤ 90 then Char.ofNat (c.toNat + 32) else c

/-- strcasecmp equality: the two strings agree up to ASCII case. -/
def strcaseEq (a b : String) : Bool :=
  a.toList.map asciiLower == b.toList.map asciiLower

/-- Embedding of s2n_strerror (src/error/s2n_errno.c lines 129-148).
A NULL language pointer is modelled as none. -/
def s2n_strerror (error : Int) (lang : Option String) : String :=
  let lang := lang.getD "EN"
  if ¬ strcaseEq lang "EN" then
    "Language is not supported for error translation"
  else
    match EN.find? (fun p => p.1 == error) with
    | some p => p.2
    | none => "Internal s2n error"

/-! ## ASN.1 time parsing (src/utils/s2n_asn1_time.c) -/

/-- Parser state constants, matching the parser_state enum in
src/utils/s2n_asn1_time.c lines 22-45 (ON_YEAR_DIGIT_1 = 0 through
ON_OFFSET_MINUTES_DIGIT_2 = 19, FINISHED = 20, PARSE_ERROR = 21). -/
def FINISHED : Nat := 20

def PARSE_ERROR : Nat := 21

def ON_SUBSECOND : Nat := 14

/-- The parser_args structure (src/utils/s2n_asn1_time.c lines 65-72) together
with the struct tm fields the state machine fills in. -/
structure ParserArgs where
  offset_negative : Bool
  local_time_assumed : Bool
  offset_hours : Int
  offset_minutes : Int
  tm_year : Int
  tm_mon : Int
  tm_mday : Int
  tm_hour : Int
  tm_min : Int
  tm_sec : Int
  tm_isdst : Int
  deriving DecidableEq, Repr

/-- Modelled from the spec: the char_to_digit helper comes from
utils/s2n_safety.h, which is not in the source tree; it yields the decimal
value of an ASCII digit and makes the state machine return PARSE_ERROR on any
non-digit. -/
def charToDigit (c : Char) : Option Int :=
  if 48 ≤ c.toNat ∧ c.toNat ≤ 57 then some ((c.toNat : Int) - 48) else none

def isDigitChar (c : Char) : Bool := 48 ≤ c.toNat ∧ c.toNat ≤ 57

/-- One step of the ASN.1 date state machine: process_state
(src/utils/s2n_asn1_time.c lines 78-216). -/
def process_state (state : Nat) (c : Char) (args : ParserArgs) : Nat × ParserArgs :=
  match state with
  | 0 => match charToDigit c with
    | none => (PARSE_ERROR, args)
    | some d => (1, { args with tm_year := d })
  | 1 => match charToDigit c with
    | none => (PARSE_ERROR, args)
    | some d => (2, { args with tm_year := args.tm_year * 10 + d })
  | 2 => match charToDigit c with
    | none => (PARSE_ERROR, args)
    | some d => (3, { args with tm_year := args.tm_year * 10 + d })
  | 3 => match charToDigit c with
    | none => (PARSE_ERROR, args)
    | some d =>
      let y := (args.tm_year * 10 + d) - 1900
      if y < 0 then (PARSE_ERROR, { args with tm_year := y })
      else (4, { args with tm_year := y })
  | 4 => match charToDigit c with
    | none => (PARSE_ERROR, args)
    | some d => (5, { args with tm_mon := d })
  | 5 => match charToDigit c with
    | none => (PARSE_ERROR, args)
    | some d =>
      let m := (args.tm_mon * 10 + d) - 1
      if m < 0 ∨ m > 11 then (PARSE_ERROR, { args with tm_mon := m })
      else (6, { args with tm_mon := m })
  | 6 => match charToDigit c with
    | none => (PARSE_ERROR, args)
    | some d => (7, { args with tm_mday := d })
  | 7 => match charToDigit c with
    | none => (PARSE_ERROR, args)
    | some d =>
      let day := args.tm_mday * 10 + d
      if day < 0 ∨ day > 31 then (PARSE_ERROR, { args with tm_mday := day })
      else (8, { args with tm_mday := day })
  | 8 => match charToDigit c with
    | none => (PARSE_ERROR, args)
    | some d => (9, { args with tm_hour := d })
  | 9 => match charToDigit c with
    | none => (PARSE_ERROR, args)
    | some d =>
      let h := args.tm_hour * 10 + d
      if h < 0 ∨ h > 23 then (PARSE_ERROR, { args with tm_hour := h })
      else (10, { args with tm_hour := h })
  | 10 => match charToDigit c with
    | none => (PARSE_ERROR, args)
    | some d => (11, { args with tm_min := d })
  | 11 => match charToDigit c with
    | none => (PARSE_ERROR, args)
    | some d =>
      let m := args.tm_min * 10 + d
      if m < 0 ∨ m > 59 then (PARSE_ERROR, { args with tm_min := m })
      else (12, { args with tm_min := m })
  | 12 => match charToDigit c with
    | none => (PARSE_ERROR, args)
    | some d => (13, { args with tm_sec := d })
  | 13 => match charToDigit c with
    | none => (PARSE_ERROR, args)
    | some d =>
      let s := args.tm_sec * 10 + d
      if s < 0 ∨ s > 59 then (PARSE_ERROR, { args with tm_sec := s })
      else (ON_SUBSECOND, { args with tm_sec := s })
  | 14 =>
    /- ON_SUBSECOND; the non-digit non-dot case falls through to ON_TIMEZONE -/
    if c = '.' ∨ isDigitChar c then (ON_SUBSECOND, args)
    else
      if c = 'Z' ∨ c = 'z' then (FINISHED, { args with local_time_assumed := false })
      else if c = '-' then (16, { args with local_time_assumed := false, offset_negative := true })
      else if c = '+' then (16, { args with local_time_assumed := false, offset_negative := false })
      else (PARSE_ERROR, args)
  | 15 =>
    if c = 'Z' ∨ c = 'z' then (FINISHED, { args with local_time_assumed := false })
    else if c = '-' then (16, { args with local_time_assumed := false, offset_negative := true })
    else if c = '+' then (16, { args with local_time_assumed := false, offset_negative := false })
    else (PARSE_ERROR, args)
  | 16 => match charToDigit c with
    | none => (PARSE_ERROR, args)
    | some d => (17, { args with offset_hours := d })
  | 17 => match charToDigit c with
    | none => (PARSE_ERROR, args)
    | some d =>
      let h := args.offset_hours * 10 + d
      if h < 0 ∨ h > 23 then (PARSE_ERROR, { args with offset_hours := h })
      else (18, { args with offset_hours := h })
  | 18 => match charToDigit c with
    | none => (PARSE_ERROR, args)
    | some d => (19, { args with offset_minutes := d })
  | 19 => match charToDigit c with
    | none => (PARSE_ERROR, args)
    | some d =>
      let m := args.offset_minutes * 10 + d
      /- NOTE: the source bound here is 23, copied from the offset-hours case -/
      if m < 0 ∨ m > 23 then (PARSE_ERROR, { args with offset_minutes := m })
      else (FINISHED, { args with offset_minutes := m })
  | _ => (PARSE_ERROR, args)

/-- The character loop of s2n_asn1_time_to_nano_since_epoch_ticks
(src/utils/s2n_asn1_time.c lines 241-245): step while state < FINISHED and
characters remain. -/
def runParser (state : Nat) (s : List Char) (args : ParserArgs) : Nat × ParserArgs :=
  match s with
  | [] => (state, args)
  | c :: rest =>
    if state < FINISHED then
      let r := process_state state c args
      runParser r.1 rest r.2
    else (state, args)

/-- Initial parser_args value (src/utils/s2n_asn1_time.c lines 228-237). -/
def initParserArgs : ParserArgs :=
  { offset_negative := false, local_time_assumed := true, offset_hours := 0,
    offset_minutes := 0, tm_year := 0, tm_mon := 0, tm_mday := 0, tm_hour := 0,
    tm_min := 0, tm_sec := 0, tm_isdst := -1 }

/-- The local-time settings read by get_current_timesettings
(src/utils/s2n_asn1_time.c lines 56-63): the current UTC offset in seconds and
the current DST flag. -/
structure TimeSettings where
  gmt_offset_current : Int
  is_dst : Int
  deriving DecidableEq

/-- Embedding of s2n_asn1_time_to_nano_since_epoch_ticks
(src/utils/s2n_asn1_time.c lines 218-276).  The libc mktime call is passed in
as a function returning the epoch seconds it computes together with the
tm_isdst value it writes back into the struct tm.  The final expression
mirrors the C uint64 arithmetic `((uint64_t) clock_data - gmt_offset) *
1000000000` modulo 2^64. -/
def s2n_asn1_time_to_nano_since_epoch_ticks (ts : TimeSettings)
    (mktimeFn : ParserArgs → Int × Int) (asn1_time : List Char) : Option Nat :=
  let r := runParser 0 asn1_time initParserArgs
  let state := r.1
  let args := r.2
  if state = FINISHED ∨ state = ON_SUBSECOND then
    let gmt0 : Int := args.offset_hours * 3600 + args.offset_minutes * 60
    let gmt1 : Int := if args.offset_negative then 0 - gmt0 else gmt0
    let clock_data : Int := (mktimeFn args).1
    let isdst_after : Int := (mktimeFn args).2
    let gmt2 : Int :=
      if ¬ args.local_time_assumed then
        gmt1 - ts.gmt_offset_current -
          (if isdst_after ≠ ts.is_dst then (isdst_after - ts.is_dst) * 3600 else 0)
      else gmt1
    if clock_data > 0 then
      some ((((clock_data - gmt2).emod (2 ^ 64)).toNat * 1000000000) % 2 ^ 64)
    else none
  else none

/-- Days between 1970-01-01 and the given civil date (proleptic Gregorian
calendar); the standard days-from-civil algorithm.  Used to give mktime a
concrete reference semantics in the theorems about concrete dates. -/
def daysFromCivil (y m d : Int) : Int :=
  let y2 := if m ≤ 2 then y - 1 else y
  let era := (if y2 ≥ 0 then y2 else y2 - 399) / 400
  let yoe := y2 - era * 400
  let mp := (m + 9) % 12
  let doy := (153 * mp + 2) / 5 + d - 1
  let doe := yoe * 365 + yoe / 4 - yoe / 100 + doy
  era * 146097 + doe - 719468

/-- Seconds since the Unix epoch of a broken-down UTC time (a timegm
reference). -/
def timegmModel (a : ParserArgs) : Int :=
  daysFromCivil (a.tm_year + 1900) (a.tm_mon + 1) a.tm_mday * 86400 +
    a.tm_hour * 3600 + a.tm_min * 60 + a.tm_sec

/-- The parser output for "20170405235959Z". -/
def argsZ : ParserArgs :=
  { offset_negative := false, local_time_assumed := false, offset_hours := 0,
    offset_minutes := 0, tm_year := 117, tm_mon := 3, tm_mday := 5, tm_hour := 23,
    tm_min := 59, tm_sec := 59, tm_isdst := -1 }

/-- The parser output for "20170405235959+0100". -/
def argsP : ParserArgs := { argsZ with offset_hours := 1 }

/-- Claim C7: parsing "20170405235959Z" succeeds and yields exactly the Unix
epoch nanosecond value for 2017-04-05 23:59:59 UTC (1491436799 seconds), and
"20170405235959+0100" yields exactly one hour earlier, independently of the
local timezone.  The timezone is modelled by a standard-time offset `base`
(at most 14 hours in either direction) and DST flags: `dstP` says whether the
zone observes DST at the parsed date, `dstCur` whether it observes DST now;
mktime then returns `timegm(tm) - base - dstP*3600` and writes
`tm_isdst = dstP`, while get_current_timesettings reads
`gmt_offset_current = base + dstCur*3600` and `is_dst = dstCur`. -/
theorem c7_asn1_time_concrete (base : Int) (dstP dstCur : Bool)
    (hbound : base.natAbs ≤ 50400) :
    s2n_asn1_time_to_nano_since_epoch_ticks
        { gmt_offset_current := base + (if dstCur then 3600 else 0),
          is_dst := if dstCur then 1 else 0 }
        (fun a => (timegmModel a - base - (if dstP then 3600 else 0),
                   if dstP then 1 else 0))
        ("20170405235959Z".toList) = some 1491436799000000000
    ∧ s2n_asn1_time_to_nano_since_epoch_ticks
        { gmt_offset_current := base + (if dstCur then 3600 else 0),
          is_dst := if dstCur then 1 else 0 }
        (fun a => (timegmModel a - base - (if dstP then 3600 else 0),
                   if dstP then 1 else 0))
        ("20170405235959+0100".toList) = some 1491433199000000000 := by
  have hZ : runParser 0 ("20170405235959Z".toList) initParserArgs = (20, argsZ) := by decide
  have hP : runParser 0 ("20170405235959+0100".toList) initParserArgs = (20, argsP) := by decide
  have htZ : timegmModel argsZ = 1491436799 := by decide
  have htP : timegmModel argsP = 1491436799 := by decide
  constructor
  · simp only [s2n_asn1_time_to_nano_since_epoch_ticks, hZ, htZ, FINISHED, ON_SUBSECOND]
    norm_num [argsZ]
    rcases dstP <;> rcases dstCur <;> norm_num <;> refine ⟨by omega, ?_⟩
    · rfl
    · rfl
    · rfl
    · rw [show (1491436799 - base - 3600 - (-3600 + -base) : Int) = 1491436799 from by ring]
      norm_num
      rfl
  · simp only [s2n_asn1_time_to_nano_since_epoch_ticks, hP, htP, FINISHED, ON_SUBSECOND]
    norm_num [argsP, argsZ]
    rcases dstP <;> rcases dstCur <;> norm_num <;> refine ⟨by omega, ?_⟩
    · rfl
    · rw [show (1491436799 - base - (-base + 3600) : Int) = 1491433199 from by ring]
      norm_num
      rfl
    · rw [show (1491436799 - base - 3600 + base : Int) = 1491433199 from by ring]
      norm_num
      rfl
    · rw [show (1491436799 - base - 3600 + base : Int) = 1491433199 from by ring]
      norm_num
      rfl

/-- Witness for c7_asn1_time_concrete at the UTC timezone (base offset 0, no
DST anywhere). -/
theorem c7_asn1_time_concrete_witness :
    ((0 : Int).natAbs ≤ 50400)
    ∧ s2n_asn1_time_to_nano_since_epoch_ticks
        { gmt_offset_current := 0 + (if false then 3600 else 0),
          is_dst := if false then 1 else 0 }
        (fun a => (timegmModel a - 0 - (if false then 3600 else 0),
                   if false then 1 else 0))
        ("20170405235959Z".toList) = some 1491436799000000000 :=
  ⟨by decide, (c7_asn1_time_concrete 0 false false (by decide)).1⟩

/-- Claim C8 (source-bug evidence): an ASN.1 time string with explicit offset
minutes 30 — which the claim says must be accepted, since only offset-minutes
values greater than 59 are to be rejected — is rejected by the code: the
state machine bound on offset minutes in src/utils/s2n_asn1_time.c line 208
is 23, copied from the offset-hours case.  Offset minutes 22 is accepted,
demonstrating that the implemented cutoff is 23, not 59. -/
theorem c8_offset_minutes_bound :
    s2n_asn1_time_to_nano_since_epoch_ticks ⟨0, 0⟩ (fun a => (timegmModel a, 0))
        ("20170405235959+0030".toList) = none
    ∧ (runParser 0 ("20170405235959+0030".toList) initParserArgs).1 = PARSE_ERROR
    ∧ s2n_asn1_time_to_nano_since_epoch_ticks ⟨0, 0⟩ (fun a => (timegmModel a, 0))
        ("20170405235959+0022".toList) = some 1491435479000000000 := by
  refine ⟨?_, by decide, ?_⟩
  · have h30 : (runParser 0 ("20170405235959+0030".toList) initParserArgs).1 = 21 := by decide
    simp only [s2n_asn1_time_to_nano_since_epoch_ticks, h30, FINISHED, ON_SUBSECOND]
    norm_num
  · have h22 : runParser 0 ("20170405235959+0022".toList) initParserArgs =
        (20, { argsZ with offset_minutes := 22 }) := by decide
    have ht : timegmModel { argsZ with offset_minutes := 22 } = 1491436799 := by decide
    simp only [s2n_asn1_time_to_nano_since_epoch_ticks, h22, ht, FINISHED, ON_SUBSECOND]
    norm_num [argsZ]
    rfl

/-- Claim C10: s2n_strerror treats a NULL language as "EN", returns the fixed
unsupported-language string for any language differing from "EN" under
case-insensitive comparison, returns the translation-table entry for a known
error code, returns the fixed "Internal s2n error" string for every code
absent from the table, and is total — its result is always a table entry or
one of the two fixed strings. -/
theorem c10_strerror (error : Int) (lang : String) :
    s2n_strerror error none = s2n_strerror error (some "EN")
    ∧ (strcaseEq lang "EN" = false →
        s2n_strerror error (some lang) =
          "Language is not supported for error translation")
    ∧ (∀ p, EN.find? (fun q => q.1 == error) = some p →
        s2n_strerror error (some "EN") = p.2)
    ∧ ((∀ p ∈ EN, p.1 ≠ error) →
        s2n_strerror error (some "EN") = "Internal s2n error")
    ∧ (s2n_strerror error (some lang) =
         "Language is not supported for error translation"
       ∨ s2n_strerror error (some lang) = "Internal s2n error"
       ∨ ∃ p ∈ EN, s2n_strerror error (some lang) = p.2) := by
  have hen : strcaseEq "EN" "EN" = true := by decide
  refine ⟨rfl, ?_, ?_, ?_, ?_⟩
  · intro h
    simp [s2n_strerror, h]
  · intro p hp
    simp [s2n_strerror, hen, hp]
  · intro h
    have hnone : EN.find? (fun q => q.1 == error) = none := by
      rw [List.find?_eq_none]
      intro p hp
      simpa using h p hp
    simp [s2n_strerror, hen, hnone]
  · by_cases hlang : strcaseEq lang "EN" = true
    · cases hfind : EN.find? (fun q => q.1 == error) with
      | none => right; left; simp [s2n_strerror, hlang, hfind]
      | some p =>
        right; right
        exact ⟨p, List.mem_of_find?_eq_some hfind, by simp [s2n_strerror, hlang, hfind]⟩
    · left
      simp [s2n_strerror, hlang]

/-- Witness for c10_strerror at concrete inputs: code 5 with a German language
tag, the unknown code 999, and the known code 54 ("Bad message
encountered"). -/
theorem c10_strerror_witness :
    s2n_strerror 5 (some "de") = "Language is not supported for error translation"
    ∧ s2n_strerror 999 (some "EN") = "Internal s2n error"
    ∧ s2n_strerror 54 (some "EN") = "Bad message encountered" :=
  ⟨(c10_strerror 5 "de").2.1 (by decide),
   (c10_strerror 999 "EN").2.2.2.1 (by decide),
   (c10_strerror 54 "EN").2.2.1 (54, "Bad message encountered") (by decide)⟩

/-! ## ServerHello extension processing (src/tls/s2n_server_extensions.c) -/

def TLS_EXTENSION_ALPN : Nat := 16

/-- The ALPN arm of the extension switch in s2n_server_extensions_recv
(src/tls/s2n_server_extensions.c lines 81-99), acting on the extension body.
`apCap` models sizeof(conn->application_protocol); the field is absent from
the s2n_connection struct in the source tree, so its capacity is kept as a
parameter.  The result is the new application_protocol on a successful copy,
the old one when the malformed extension is skipped by `continue`, and none
when a GUARD or notnull_check fails. -/
def processALPN (apCap : Nat) (ap : List Nat) (ext : List Nat) : Option (List Nat) :=
  match ext with
  | b0 :: b1 :: r1 =>
    let size_of_all := b0 * 256 + b1
    if size_of_all > r1.length ∨ size_of_all < 3 then some ap
    else
      match r1 with
      | [] => none
      | protocol_len :: r2 =>
        if protocol_len > apCap - 1 then some ap
        else if protocol_len ≤ r2.length then some (r2.take protocol_len)
        else none
  | _ => none

/-- Embedding of the extension loop of s2n_server_extensions_recv
(src/tls/s2n_server_extensions.c lines 56-104) over the raw extensions bytes:
read a 2-byte type and 2-byte size, consume the body with raw_read (failing
when fewer bytes remain), dispatch ALPN, and ignore every other type. -/
def s2n_server_extensions_recv (apCap : Nat) (ap : List Nat) (input : List Nat) :
    Option (List Nat) :=
  match input with
  | [] => some ap
  | t1 :: t2 :: s1 :: s2 :: r2 =>
    let extension_type := t1 * 256 + t2
    let extension_size := s1 * 256 + s2
    if extension_size ≤ r2.length then
      match (if extension_type = TLS_EXTENSION_ALPN then
               processALPN apCap ap (r2.take extension_size)
             else some ap) with
      | none => none
      | some ap2 => s2n_server_extensions_recv apCap ap2 (r2.drop extension_size)
    else none
  | _ => none
termination_by input.length
decreasing_by simp [List.length_drop]; omega

/-- TLV serialization of a list of (extension type, body) pairs, as consumed
by s2n_server_extensions_recv. -/
def serializeExts : List (Nat × List Nat) → List Nat
  | [] => []
  | (t, b) :: rest =>
    t / 256 :: t % 256 :: b.length / 256 :: b.length % 256 :: (b ++ serializeExts rest)

/-- An ALPN extension body that the parser silently skips: the inner
protocol-name-list length exceeds the available bytes or is below 3, or the
first protocol name is longer than the application_protocol field. -/
def alpnSkipped (apCap : Nat) (body : List Nat) : Prop :=
  2 ≤ body.length ∧
    (body.getD 0 0 * 256 + body.getD 1 0 > body.length - 2
     ∨ body.getD 0 0 * 256 + body.getD 1 0 < 3
     ∨ body.getD 2 0 > apCap - 1)

instance (apCap : Nat) (body : List Nat) : Decidable (alpnSkipped apCap body) := by
  unfold alpnSkipped
  infer_instance

lemma processALPN_skip (apCap : Nat) (ap : List Nat) (body : List Nat)
    (h : alpnSkipped apCap body) : processALPN apCap ap body = some ap := by
  obtain ⟨hlen, hcases⟩ := h
  obtain ⟨b0, b1, r1, rfl⟩ : ∃ b0 b1 r1, body = b0 :: b1 :: r1 := by
    match body, hlen with
    | b0 :: b1 :: r1, _ => exact ⟨b0, b1, r1, rfl⟩
  simp only [List.getD_cons_zero, List.getD_cons_succ, List.length_cons] at hcases
  simp only [processALPN]
  by_cases h1 : b0 * 256 + b1 > r1.length ∨ b0 * 256 + b1 < 3
  · rw [if_pos h1]
  · rw [if_neg h1]
    push_neg at h1
    have hr1 : 3 ≤ r1.length := le_trans h1.2 h1.1
    obtain ⟨p0, r2, rfl⟩ : ∃ p0 r2, r1 = p0 :: r2 := by
      match r1, hr1 with
      | p0 :: r2, _ => exact ⟨p0, r2, rfl⟩
    simp only [List.getD_cons_zero, List.getD_cons_succ, List.length_cons] at hcases
    have hp0 : p0 > apCap - 1 := by
      rcases hcases with hc | hc | hc
      · exfalso
        simp only [List.length_cons] at h1
        omega
      · omega
      · exact hc
    simp [hp0]

/-- Claim C9: when the client processes ServerHello extensions, every ALPN
extension malformed in one of the three listed ways is silently skipped, and
unrecognized extension types are consumed without error:
s2n_server_extensions_recv succeeds and leaves application_protocol
unchanged. -/
theorem c9_malformed_alpn_skipped (apCap : Nat) (ap : List Nat)
    (exts : List (Nat × List Nat))
    (hwf : ∀ p ∈ exts, p.1 < 65536 ∧ p.2.length < 65536)
    (halpn : ∀ p ∈ exts, p.1 = TLS_EXTENSION_ALPN → alpnSkipped apCap p.2) :
    s2n_server_extensions_recv apCap ap (serializeExts exts) = some ap := by
  induction exts with
  | nil => simp [s2n_server_extensions_recv, serializeExts]
  | cons hd tl ih =>
    obtain ⟨t, b⟩ := hd
    have hw := hwf (t, b) (by simp)
    have htype : t / 256 * 256 + t % 256 = t := by omega
    have hsize : b.length / 256 * 256 + b.length % 256 = b.length := by omega
    simp only [serializeExts, s2n_server_extensions_recv, htype, hsize]
    rw [if_pos (by simp)]
    rw [List.take_left' rfl, List.drop_left' rfl]
    have htl : s2n_server_extensions_recv apCap ap (serializeExts tl) = some ap :=
      ih (fun p hp => hwf p (List.mem_cons_of_mem _ hp))
        (fun p hp h16 => halpn p (List.mem_cons_of_mem _ hp) h16)
    by_cases ht : t = TLS_EXTENSION_ALPN
    · rw [if_pos ht]
      rw [processALPN_skip apCap ap b (halpn (t, b) (by simp) ht)]
      exact htl
    · rw [if_neg ht]
      exact htl

/-- Witness for c9_malformed_alpn_skipped: one ALPN extension whose inner
list length is too short (2 < 3), one whose inner length exceeds the
available bytes, one whose protocol name exceeds the field capacity, and one
unrecognized extension type; the parse succeeds and the previously negotiated
protocol [104, 50] is untouched. -/
theorem c9_malformed_alpn_skipped_witness :
    s2n_server_extensions_recv 256 [104, 50]
      (serializeExts [(16, [0, 2, 1, 65]), (16, [0, 9, 1, 65]),
                      (16, [2, 0, 255, 65]), (99, [1, 2, 3])]) = some [104, 50] :=
  c9_malformed_alpn_skipped 256 [104, 50]
    [(16, [0, 2, 1, 65]), (16, [0, 9, 1, 65]), (16, [2, 0, 255, 65]), (99, [1, 2, 3])]
    (by decide) (by decide)

/-! ## TLS 1.3 finished key and finished MAC (src/crypto/s2n_tls13_keys.c) -/

/-- Incremental hash state (the crypto hash façade): the bytes absorbed so
far plus a flag recording whether the state is still updatable —
s2n_hash_digest finalizes a state, after which it must be re-initialized
before further updates. -/
structure HashState where
  absorbed : List Nat
  valid : Bool
  deriving DecidableEq

def s2n_hash_update (st : HashState) (msg : List Nat) : Option HashState :=
  if st.valid then some { st with absorbed := st.absorbed ++ msg } else none

/-- s2n_hash_copy produces an independently progressable duplicate of the
state. -/
def s2n_hash_copy (src : HashState) : HashState := src

/-- s2n_hash_digest finalizes the state it is applied to and emits the digest
of the absorbed bytes under the hash primitive `hashFn`. -/
def s2n_hash_digest (hashFn : List Nat → List Nat) (st : HashState) :
    Option (List Nat × HashState) :=
  if st.valid then some (hashFn st.absorbed, { st with valid := false }) else none

/-- Modelled from the spec: crypto/s2n_hkdf.c is not in the source tree.
HKDF-Extract (RFC 5869) is HMAC keyed by the salt over the input keying
material. -/
def s2n_hkdf_extract (hmacFn : List Nat → List Nat → List Nat)
    (salt ikm : List Nat) : List Nat :=
  hmacFn salt ikm

/-- Modelled from the spec (§4.B and §6): the HKDF-Label structure
uint16(out_len) || uint8(len("tls13 " + label)) || "tls13 " + label ||
uint8(len(context)) || context. -/
def hkdfLabel (outLen : Nat) (label context : List Nat) : List Nat :=
  let full := ("tls13 ".toList.map Char.toNat) ++ label
  (outLen / 256 % 256) :: (outLen % 256) :: (full.length % 256) ::
    (full ++ ((context.length % 256) :: context))

/-- The i-th output block T(i) of HKDF-Expand (RFC 5869):
T(0) = empty, T(i+1) = HMAC(prk, T(i) || info || i+1). -/
def hkdfT (hmacFn : List Nat → List Nat → List Nat) (prk info : List Nat) :
    Nat → List Nat
  | 0 => []
  | i + 1 => hmacFn prk (hkdfT hmacFn prk info i ++ info ++ [(i + 1) % 256])

/-- HKDF-Expand: the first outLen bytes of T(1) || T(2) || ...; outLen blocks
always suffice. -/
def hkdfExpand (hmacFn : List Nat → List Nat → List Nat)
    (prk info : List Nat) (outLen : Nat) : List Nat :=
  (((List.range outLen).map (fun i => hkdfT hmacFn prk info (i + 1))).flatten).take outLen

/-- Modelled from the spec: HKDF-Expand-Label expands the secret under the
HKDF-Label info structure. -/
def s2n_hkdf_expand_label (hmacFn : List Nat → List Nat → List Nat)
    (secret label context : List Nat) (outLen : Nat) : List Nat :=
  hkdfExpand hmacFn secret (hkdfLabel outLen label context) outLen

/-- The s2n_tls13_keys fields the finished-key functions read: `size` is the
digest size of the negotiated hash algorithm. -/
structure Tls13Keys where
  size : Nat

/-- S2N_BLOB_LABEL(s2n_tls13_label_finished, "finished")
(src/crypto/s2n_tls13_keys.c line 87). -/
def s2n_tls13_label_finished : List Nat := "finished".toList.map Char.toNat

/-- Embedding of s2n_tls13_derive_finished_key
(src/crypto/s2n_tls13_keys.c lines 297-302): expand the traffic secret under
the "finished" label with empty context into a key of digest size. -/
def s2n_tls13_derive_finished_key (hmacFn : List Nat → List Nat → List Nat)
    (keys : Tls13Keys) (secret_key : List Nat) : List Nat :=
  s2n_hkdf_expand_label hmacFn secret_key s2n_tls13_label_finished [] keys.size

/-- Embedding of s2n_tls13_calculate_finished_mac
(src/crypto/s2n_tls13_keys.c lines 309-323): copy the caller's hash state,
finalize only the copy into the transcript hash, and HKDF-Extract with the
finished key as salt and the transcript hash as input keying material.  The
returned state is the caller's hash state after the call. -/
def s2n_tls13_calculate_finished_mac (hashFn : List Nat → List Nat)
    (hmacFn : List Nat → List Nat → List Nat) (keys : Tls13Keys)
    (finished_key : List Nat) (hash_state : HashState) :
    Option (List Nat × HashState) :=
  let hash_state_copy := s2n_hash_copy hash_state
  match s2n_hash_digest hashFn hash_state_copy with
  | none => none
  | some (transcript_hash, _) =>
    some (s2n_hkdf_extract hmacFn finished_key transcript_hash, hash_state)

/-- Claim C6: the finished key is HKDF-Expand-Label(traffic_secret,
"finished", "", hash length); the finished verify data is
HMAC(finished_key, transcript_hash) — realized as HKDF-Extract with the
finished key as salt and the transcript hash as IKM; and computing the verify
data finalizes only a copy of the hash state, returning the caller's running
state unchanged and still accepting appends. -/
theorem c6_finished_key_and_mac (hashFn : List Nat → List Nat)
    (hmacFn : List Nat → List Nat → List Nat) (keys : Tls13Keys)
    (secret fk msg : List Nat) (st : HashState)
    (hvalid : st.valid = true) :
    s2n_tls13_derive_finished_key hmacFn keys secret
      = hkdfExpand hmacFn secret (hkdfLabel keys.size s2n_tls13_label_finished []) keys.size
    ∧ s2n_tls13_calculate_finished_mac hashFn hmacFn keys fk st
        = some (hmacFn fk (hashFn st.absorbed), st)
    ∧ s2n_hash_update st msg = some { st with absorbed := st.absorbed ++ msg } := by
  refine ⟨rfl, ?_, ?_⟩
  · simp [s2n_tls13_calculate_finished_mac, s2n_hash_digest, s2n_hash_copy,
      s2n_hkdf_extract, hvalid]
  · simp [s2n_hash_update, hvalid]

/-- Witness for c6_finished_key_and_mac with toy hash and HMAC primitives and
a running transcript state holding [1, 2, 3]. -/
theorem c6_finished_key_and_mac_witness :
    (({ absorbed := [1, 2, 3], valid := true } : HashState).valid = true)
    ∧ s2n_tls13_calculate_finished_mac (fun l => [l.length % 256])
        (fun k m => k ++ m) { size := 2 } [9]
        { absorbed := [1, 2, 3], valid := true }
        = some ([9, 3], { absorbed := [1, 2, 3], valid := true }) :=
  ⟨rfl,
   (c6_finished_key_and_mac (fun l => [l.length % 256]) (fun k m => k ++ m)
      { size := 2 } [] [9] [7] { absorbed := [1, 2, 3], valid := true } rfl).2.1⟩

/-! ## Post-quantum KEM negotiation (tls/s2n_kem.c is absent from the source
tree; the model below is built from the spec's KEM-selection paragraph and
pinned against every expectation of src/tests/unit/s2n_kem_test.c) -/

/-- A KEM as identified on the wire by its 16-bit extension id (the other
s2n_kem fields — key lengths and function pointers — play no role in
negotiation). -/
structure S2nKem where
  kem_extension_id : Nat
  deriving DecidableEq, Repr

/-- TLS_PQ_KEM_EXTENSION_ID_BIKE1_L1_R1 = 1, per the client_kems bytes of the
unit test. -/
def s2n_bike1_l1_r1 : S2nKem := ⟨1⟩

/-- TLS_PQ_KEM_EXTENSION_ID_BIKE1_L1_R2 = 13. -/
def s2n_bike1_l1_r2 : S2nKem := ⟨13⟩

/-- TLS_PQ_KEM_EXTENSION_ID_SIKE_P503_R1 = 10. -/
def s2n_sike_p503_r1 : S2nKem := ⟨10⟩

/-- TLS_PQ_KEM_EXTENSION_ID_SIKE_P434_R2 = 16. -/
def s2n_sike_p434_r2 : S2nKem := ⟨16⟩

/-- IANA code of TLS_ECDHE_BIKE_RSA_WITH_AES_256_GCM_SHA384
(tls/s2n_tls_parameters.h is absent; only distinctness of the two PQ suite
codes matters). -/
def bikeIana : Nat := 0xFF04

/-- IANA code of TLS_ECDHE_SIKE_RSA_WITH_AES_256_GCM_SHA384. -/
def sikeIana : Nat := 0xFF08

/-- Modelled from the spec: s2n_cipher_suite_to_kem maps a post-quantum
cipher suite to its compatible KEM list; the two mappings are pinned by
src/tests/unit/s2n_kem_test.c lines 324-343. -/
def s2n_cipher_suite_to_kem (iana : Nat) : Option (List S2nKem) :=
  if iana = bikeIana then some [s2n_bike1_l1_r1, s2n_bike1_l1_r2]
  else if iana = sikeIana then some [s2n_sike_p503_r1, s2n_sike_p434_r2]
  else none

/-- Whether a KEM is compatible with the given cipher suite. -/
def kemCompatible (iana : Nat) (kem : S2nKem) : Bool :=
  match s2n_cipher_suite_to_kem iana with
  | some l => l.any (fun k => k.kem_extension_id == kem.kem_extension_id)
  | none => false

/-- The client's KEM ids arrive as big-endian 16-bit pairs in a blob. -/
def parseKemIds : List Nat → List Nat
  | a :: b :: r => (a * 256 + b) :: parseKemIds r
  | _ => []

inductive KemResult where
  | ok (kem : S2nKem)
  | kem_unsupported_params
  deriving DecidableEq, Repr

/-- Modelled from the spec (§4.E KEM selection): iterate the server's
preference list and return the first KEM that the client also advertised;
fail with KEM_UNSUPPORTED_PARAMS otherwise.  The suite-compatibility filter
on server entries is required by the unit test (mixed server preference lists
such as pq_kems_r1 hold KEMs of both suites and the test expects entries of
the other suite to be skipped, s2n_kem_test.c lines 110-216). -/
def s2n_kem_find_supported_kem (iana : Nat) (clientKemBytes : List Nat)
    (serverPref : List S2nKem) : KemResult :=
  match serverPref.find? (fun k => kemCompatible iana k
      && (parseKemIds clientKemBytes).contains k.kem_extension_id) with
  | some k => .ok k
  | none => .kem_unsupported_params

/-- Modelled from the spec: when the client offered no KEMs the server picks
its own top (suite-compatible) choice; fails when no compatible entry exists
(s2n_kem_test.c lines 285-322). -/
def s2n_kem_choose_server_preferred_kem (iana : Nat)
    (serverPref : List S2nKem) : KemResult :=
  match serverPref.find? (fun k => kemCompatible iana k) with
  | some k => .ok k
  | none => .kem_unsupported_params

/-- The round-1 server preference list (bike1l1r1, sikep503r1). -/
def pq_kems_r1 : List S2nKem := [s2n_bike1_l1_r1, s2n_sike_p503_r1]

/-- The round-1+2 server preference list, round-2 entries preferred. -/
def pq_kems_r1r2 : List S2nKem :=
  [s2n_bike1_l1_r2, s2n_bike1_l1_r1, s2n_sike_p434_r2, s2n_sike_p503_r1]

/-- The model reproduces every s2n_kem_find_supported_kem and
s2n_kem_choose_server_preferred_kem expectation of the unit test
src/tests/unit/s2n_kem_test.c (lines 110-322). -/
lemma kem_model_matches_unit_test :
    (s2n_kem_find_supported_kem bikeIana [0, 1, 0, 13, 0, 10, 0, 16] pq_kems_r1 = .ok s2n_bike1_l1_r1)
    ∧ (s2n_kem_find_supported_kem bikeIana [0, 1, 0, 13, 0, 10, 0, 16] pq_kems_r1r2 = .ok s2n_bike1_l1_r2)
    ∧ (s2n_kem_find_supported_kem sikeIana [0, 1, 0, 13, 0, 10, 0, 16] pq_kems_r1 = .ok s2n_sike_p503_r1)
    ∧ (s2n_kem_find_supported_kem sikeIana [0, 1, 0, 13, 0, 10, 0, 16] pq_kems_r1r2 = .ok s2n_sike_p434_r2)
    ∧ (s2n_kem_find_supported_kem bikeIana [0, 10, 0, 1, 0, 16, 0, 13] pq_kems_r1 = .ok s2n_bike1_l1_r1)
    ∧ (s2n_kem_find_supported_kem bikeIana [0, 10, 0, 1, 0, 16, 0, 13] pq_kems_r1r2 = .ok s2n_bike1_l1_r2)
    ∧ (s2n_kem_find_supported_kem sikeIana [0, 10, 0, 1, 0, 16, 0, 13] pq_kems_r1 = .ok s2n_sike_p503_r1)
    ∧ (s2n_kem_find_supported_kem sikeIana [0, 10, 0, 1, 0, 16, 0, 13] pq_kems_r1r2 = .ok s2n_sike_p434_r2)
    ∧ (s2n_kem_find_supported_kem bikeIana [0, 10, 0, 1] pq_kems_r1 = .ok s2n_bike1_l1_r1)
    ∧ (s2n_kem_find_supported_kem bikeIana [0, 10, 0, 1] pq_kems_r1r2 = .ok s2n_bike1_l1_r1)
    ∧ (s2n_kem_find_supported_kem sikeIana [0, 10, 0, 1] pq_kems_r1 = .ok s2n_sike_p503_r1)
    ∧ (s2n_kem_find_supported_kem sikeIana [0, 10, 0, 1] pq_kems_r1r2 = .ok s2n_sike_p503_r1)
    ∧ (s2n_kem_find_supported_kem bikeIana [0, 13, 0, 16] pq_kems_r1 = .kem_unsupported_params)
    ∧ (s2n_kem_find_supported_kem bikeIana [0, 13, 0, 16] pq_kems_r1r2 = .ok s2n_bike1_l1_r2)
    ∧ (s2n_kem_find_supported_kem sikeIana [0, 13, 0, 16] pq_kems_r1 = .kem_unsupported_params)
    ∧ (s2n_kem_find_supported_kem sikeIana [0, 13, 0, 16] pq_kems_r1r2 = .ok s2n_sike_p434_r2)
    ∧ (s2n_kem_find_supported_kem bikeIana [0, 1, 0, 16] pq_kems_r1 = .ok s2n_bike1_l1_r1)
    ∧ (s2n_kem_find_supported_kem bikeIana [0, 1, 0, 16] pq_kems_r1r2 = .ok s2n_bike1_l1_r1)
    ∧ (s2n_kem_find_supported_kem sikeIana [0, 1, 0, 16] pq_kems_r1 = .kem_unsupported_params)
    ∧ (s2n_kem_find_supported_kem sikeIana [0, 1, 0, 16] pq_kems_r1r2 = .ok s2n_sike_p434_r2)
    ∧ (s2n_kem_find_supported_kem bikeIana [0, 1, 0, 13] pq_kems_r1 = .ok s2n_bike1_l1_r1)
    ∧ (s2n_kem_find_supported_kem bikeIana [0, 1, 0, 13] pq_kems_r1r2 = .ok s2n_bike1_l1_r2)
    ∧ (s2n_kem_find_supported_kem sikeIana [0, 1, 0, 13] pq_kems_r1 = .kem_unsupported_params)
    ∧ (s2n_kem_find_supported_kem sikeIana [0, 1, 0, 13] pq_kems_r1r2 = .kem_unsupported_params)
    ∧ (s2n_kem_find_supported_kem bikeIana [0, 16, 0, 10] pq_kems_r1 = .kem_unsupported_params)
    ∧ (s2n_kem_find_supported_kem bikeIana [0, 16, 0, 10] pq_kems_r1r2 = .kem_unsupported_params)
    ∧ (s2n_kem_find_supported_kem sikeIana [0, 16, 0, 10] pq_kems_r1 = .ok s2n_sike_p503_r1)
    ∧ (s2n_kem_find_supported_kem sikeIana [0, 16, 0, 10] pq_kems_r1r2 = .ok s2n_sike_p434_r2)
    ∧ (s2n_kem_choose_server_preferred_kem bikeIana pq_kems_r1 = .ok s2n_bike1_l1_r1)
    ∧ (s2n_kem_choose_server_preferred_kem bikeIana pq_kems_r1r2 = .ok s2n_bike1_l1_r2)
    ∧ (s2n_kem_choose_server_preferred_kem sikeIana pq_kems_r1 = .ok s2n_sike_p503_r1)
    ∧ (s2n_kem_choose_server_preferred_kem sikeIana pq_kems_r1r2 = .ok s2n_sike_p434_r2)
    ∧ (s2n_kem_choose_server_preferred_kem bikeIana [s2n_sike_p434_r2, s2n_sike_p503_r1] = .kem_unsupported_params)
    ∧ (s2n_kem_choose_server_preferred_kem sikeIana [s2n_bike1_l1_r2] = .kem_unsupported_params) := by
  decide

/-- Claim C1 counterexample, taken directly from the unit test
(s2n_kem_test.c lines 169-193): for the SIKE suite with server preferences
pq_kems_r1 = [bike1l1r1, sikep503r1] and client offer [sikep503r1, bike1l1r1],
the first entry of the server's preference list that also appears in the
client's list is bike1l1r1, yet negotiation returns sikep503r1 — the claim
omits the suite-compatibility filter. -/
theorem c1_counterexample :
    (pq_kems_r1.find? (fun k =>
        (parseKemIds [0, 10, 0, 1]).contains k.kem_extension_id)
      = some s2n_bike1_l1_r1)
    ∧ s2n_kem_find_supported_kem sikeIana [0, 10, 0, 1] pq_kems_r1
        = .ok s2n_sike_p503_r1
    ∧ s2n_sike_p503_r1 ≠ s2n_bike1_l1_r1 := by
  decide

/-- The selection condition of s2n_kem_find_supported_kem: the server-list
entry is compatible with the suite and the client advertised it. -/
def kemUsable (iana : Nat) (clientKemBytes : List Nat) (k : S2nKem) : Bool :=
  kemCompatible iana k && (parseKemIds clientKemBytes).contains k.kem_extension_id

lemma find_supported_eq_ok_iff (iana : Nat) (clientKemBytes : List Nat)
    (serverPref : List S2nKem) (k : S2nKem) :
    s2n_kem_find_supported_kem iana clientKemBytes serverPref = KemResult.ok k ↔
      serverPref.find? (kemUsable iana clientKemBytes) = some k := by
  unfold s2n_kem_find_supported_kem kemUsable
  cases hf : serverPref.find? (fun k => kemCompatible iana k
      && (parseKemIds clientKemBytes).contains k.kem_extension_id) <;> simp [hf]

lemma find_supported_eq_err_iff (iana : Nat) (clientKemBytes : List Nat)
    (serverPref : List S2nKem) :
    s2n_kem_find_supported_kem iana clientKemBytes serverPref
        = KemResult.kem_unsupported_params ↔
      serverPref.find? (kemUsable iana clientKemBytes) = none := by
  unfold s2n_kem_find_supported_kem kemUsable
  cases hf : serverPref.find? (fun k => kemCompatible iana k
      && (parseKemIds clientKemBytes).contains k.kem_extension_id) <;> simp [hf]

/-- Claim C1 (amended): KEM negotiation returns the first entry of the
server's preference list that is compatible with the negotiated suite and
also appears in the client's list (kemUsable); it fails with
KEM_UNSUPPORTED_PARAMS exactly when no server entry is both compatible and
client-offered; when the client offered no KEMs the server selects the first
suite-compatible entry of its own preference list; and the client's ordering
never influences the result — two client offers with the same membership
negotiate identically. -/
theorem c1_kem_negotiation_amended (iana : Nat) (serverPref : List S2nKem)
    (clientBytes clientBytes2 : List Nat)
    (hperm : ∀ i, (parseKemIds clientBytes).contains i
      = (parseKemIds clientBytes2).contains i) :
    (∀ k, s2n_kem_find_supported_kem iana clientBytes serverPref = KemResult.ok k ↔
      kemUsable iana clientBytes k = true
      ∧ ∃ pre post, serverPref = pre ++ k :: post
        ∧ ∀ y ∈ pre, kemUsable iana clientBytes y = false)
    ∧ (s2n_kem_find_supported_kem iana clientBytes serverPref
          = KemResult.kem_unsupported_params ↔
        ∀ k ∈ serverPref, kemUsable iana clientBytes k = false)
    ∧ (∀ k, s2n_kem_choose_server_preferred_kem iana serverPref = KemResult.ok k ↔
        kemCompatible iana k = true
        ∧ ∃ pre post, serverPref = pre ++ k :: post
          ∧ ∀ y ∈ pre, kemCompatible iana y = false)
    ∧ s2n_kem_find_supported_kem iana clientBytes serverPref
        = s2n_kem_find_supported_kem iana clientBytes2 serverPref := by
  have hpred : kemUsable iana clientBytes = kemUsable iana clientBytes2 := by
    funext j
    unfold kemUsable
    rw [hperm]
  refine ⟨?_, ?_, ?_, ?_⟩
  · intro k
    rw [find_supported_eq_ok_iff, List.find?_eq_some]
    constructor
    · rintro ⟨hk, pre, post, heq, hpre⟩
      exact ⟨hk, pre, post, heq, fun y hy => by simpa using hpre y hy⟩
    · rintro ⟨hk, pre, post, heq, hpre⟩
      exact ⟨hk, pre, post, heq, fun y hy => by simpa using hpre y hy⟩
  · rw [find_supported_eq_err_iff, List.find?_eq_none]
    simp only [Bool.not_eq_true]
  · intro k
    unfold s2n_kem_choose_server_preferred_kem
    cases hf : serverPref.find? (fun j => kemCompatible iana j) with
    | some j =>
      simp only [hf, KemResult.ok.injEq]
      constructor
      · intro h
        subst h
        have h2 := hf
        rw [List.find?_eq_some] at h2
        obtain ⟨hj, pre, post, heq, hpre⟩ := h2
        exact ⟨hj, pre, post, heq, fun y hy => by simpa using hpre y hy⟩
      · rintro ⟨hk, pre, post, heq, hpre⟩
        have h1 : serverPref.find? (fun j => kemCompatible iana j) = some k := by
          rw [List.find?_eq_some]
          exact ⟨hk, pre, post, heq, fun y hy => by simpa using hpre y hy⟩
        rw [hf] at h1
        injection h1
    | none =>
      simp only [hf]
      rw [List.find?_eq_none] at hf
      constructor
      · intro h
        exact absurd h (by simp)
      · rintro ⟨hk, pre, post, heq, hpre⟩
        exact absurd hk (by simpa using hf k (by rw [heq]; simp))
  · unfold s2n_kem_find_supported_kem kemUsable at *
    rw [show (fun k => kemCompatible iana k
        && (parseKemIds clientBytes).contains k.kem_extension_id)
      = (fun k => kemCompatible iana k
        && (parseKemIds clientBytes2).contains k.kem_extension_id) from by
      funext j
      rw [hperm]]

/-- Witness for c1_kem_negotiation_amended: the BIKE suite with client offer
[bike1l1r1, bike1l1r2] and the same offer reversed negotiate the same KEM,
namely the server-preferred bike1l1r2. -/
theorem c1_kem_negotiation_amended_witness :
    s2n_kem_find_supported_kem bikeIana [0, 1, 0, 13] pq_kems_r1r2
      = s2n_kem_find_supported_kem bikeIana [0, 13, 0, 1] pq_kems_r1r2
    ∧ s2n_kem_find_supported_kem bikeIana [0, 1, 0, 13] pq_kems_r1r2
      = KemResult.ok s2n_bike1_l1_r2 :=
  ⟨(c1_kem_negotiation_amended bikeIana pq_kems_r1r2 [0, 1, 0, 13] [0, 13, 0, 1]
      (by
        intro i
        show ([1, 13] : List Nat).contains i = ([13, 1] : List Nat).contains i
        simp [List.contains_cons]
        by_cases h1 : i = 1 <;> by_cases h13 : i = 13 <;> simp [h1, h13])).2.2.2,
   by decide⟩

/-! ## TLS 1.3 certificate and signature-scheme selection
(tls/s2n_client_hello.c is absent from the source tree; modelled from the
spec §4.E and pinned by src/tests/unit/s2n_tls13_server_cert_selection_test.c) -/

inductive CertType where
  | rsa
  | ecdsa
  deriving DecidableEq, Repr

/-- A signature scheme: its IANA code and the certificate key type it is
compatible with. -/
structure SigScheme where
  iana_value : Nat
  cert_type : CertType
  deriving DecidableEq, Repr

def TLS_SIGNATURE_SCHEME_RSA_PKCS1_SHA256 : Nat := 0x0401

def TLS_SIGNATURE_SCHEME_ECDSA_SHA256 : Nat := 0x0403

/-- Modelled from the spec: the server's supported signature-scheme table
(s2n_supported_sig_scheme_pref_list); the unit test relies on it containing
RSA-PKCS1-SHA256 for RSA certs and ECDSA-SHA256 for ECDSA certs. -/
def s2n_supported_sig_scheme_pref_list : List SigScheme :=
  [⟨TLS_SIGNATURE_SCHEME_RSA_PKCS1_SHA256, .rsa⟩,
   ⟨TLS_SIGNATURE_SCHEME_ECDSA_SHA256, .ecdsa⟩]

/-- A server candidate certificate: an identifier and its key type. -/
structure CertChainAndKey where
  cert_id : Nat
  cert_type : CertType
  deriving DecidableEq, Repr

/-- Modelled from the spec (§4.E): for one candidate cert, the first entry of
the client's signature_algorithms list that the server supports and that is
compatible with the cert's key type. -/
def sigSchemeForCert (supported : List SigScheme) (clientIanas : List Nat)
    (ct : CertType) : Option SigScheme :=
  clientIanas.findSome? (fun iana =>
    supported.find? (fun s => s.iana_value == iana && s.cert_type == ct))

/-- Modelled from the spec: s2n_choose_tls13_sig_scheme_and_set_cert iterates
the server's candidate cert list and commits the first (cert, sig_scheme)
pair found; it fails (none) when no pair exists — in particular with no
certificate or an empty client signature_algorithms list. -/
def s2n_choose_tls13_sig_scheme_and_set_cert (supported : List SigScheme)
    (certs : List CertChainAndKey) (clientIanas : List Nat) :
    Option (CertChainAndKey × SigScheme) :=
  certs.findSome? (fun c =>
    (sigSchemeForCert supported clientIanas c.cert_type).map (fun s => (c, s)))

/-- First-hit characterization of List.findSome?. -/
lemma findSome_eq_some_split {α β : Type} (f : α → Option β) (l : List α) (b : β) :
    l.findSome? f = some b ↔
      ∃ pre x post, l = pre ++ x :: post ∧ f x = some b ∧ ∀ y ∈ pre, f y = none := by
  induction l with
  | nil => simp
  | cons a tl ih =>
    rw [List.findSome?_cons]
    cases hfa : f a with
    | some c =>
      constructor
      · intro h
        exact ⟨[], a, tl, rfl, by rw [hfa]; exact h, by simp⟩
      · rintro ⟨pre, x, post, heq, hx, hpre⟩
        cases pre with
        | nil =>
          simp only [List.nil_append, List.cons.injEq] at heq
          rw [← heq.1, hfa] at hx
          exact hx
        | cons p pre2 =>
          simp only [List.cons_append, List.cons.injEq] at heq
          exact absurd hfa (by rw [heq.1]; simp [hpre p (by simp)])
    | none =>
      rw [ih]
      constructor
      · rintro ⟨pre, x, post, heq, hx, hpre⟩
        refine ⟨a :: pre, x, post, by rw [heq, List.cons_append], hx, ?_⟩
        intro y hy
        rcases List.mem_cons.mp hy with rfl | hy2
        · exact hfa
        · exact hpre y hy2
      · rintro ⟨pre, x, post, heq, hx, hpre⟩
        cases pre with
        | nil =>
          simp only [List.nil_append, List.cons.injEq] at heq
          rw [← heq.1, hfa] at hx
          exact absurd hx (by simp)
        | cons p pre2 =>
          simp only [List.cons_append, List.cons.injEq] at heq
          refine ⟨pre2, x, post, heq.2, hx, ?_⟩
          intro y hy
          exact hpre y (List.mem_cons_of_mem _ hy)

/-- Claim C2: TLS 1.3 cert/sig-scheme selection commits the first compatible
(cert, sig_scheme) pair in server-cert-major, client-sig-list-minor order;
selection fails on an empty client signature_algorithms list and with no
certificate; and a server with RSA and ECDSA certs given client
signature_algorithms [ECDSA_SHA256] selects the ECDSA cert with scheme
ECDSA_SHA256. -/
theorem c2_tls13_cert_selection (supported : List SigScheme)
    (certs : List CertChainAndKey) (clientIanas : List Nat) :
    (∀ c s, s2n_choose_tls13_sig_scheme_and_set_cert supported certs clientIanas
        = some (c, s) ↔
      ∃ pre post, certs = pre ++ c :: post
        ∧ sigSchemeForCert supported clientIanas c.cert_type = some s
        ∧ ∀ d ∈ pre, sigSchemeForCert supported clientIanas d.cert_type = none)
    ∧ (∀ ct s, sigSchemeForCert supported clientIanas ct = some s ↔
        ∃ pre i post, clientIanas = pre ++ i :: post
          ∧ supported.find? (fun t => t.iana_value == i && t.cert_type == ct) = some s
          ∧ ∀ j ∈ pre,
              supported.find? (fun t => t.iana_value == j && t.cert_type == ct) = none)
    ∧ s2n_choose_tls13_sig_scheme_and_set_cert supported certs [] = none
    ∧ s2n_choose_tls13_sig_scheme_and_set_cert supported [] clientIanas = none
    ∧ s2n_choose_tls13_sig_scheme_and_set_cert s2n_supported_sig_scheme_pref_list
        [⟨0, .rsa⟩, ⟨1, .ecdsa⟩] [TLS_SIGNATURE_SCHEME_ECDSA_SHA256]
        = some (⟨1, .ecdsa⟩, ⟨TLS_SIGNATURE_SCHEME_ECDSA_SHA256, .ecdsa⟩) := by
  refine ⟨?_, ?_, ?_, rfl, by decide⟩
  · intro c s
    unfold s2n_choose_tls13_sig_scheme_and_set_cert
    rw [findSome_eq_some_split]
    constructor
    · rintro ⟨pre, x, post, heq, hx, hpre⟩
      rw [Option.map_eq_some'] at hx
      obtain ⟨s2, hs2, hxs⟩ := hx
      obtain ⟨rfl, rfl⟩ : x = c ∧ s2 = s := Prod.mk.injEq .. ▸ hxs
      exact ⟨pre, post, heq, hs2, fun d hd => Option.map_eq_none'.mp (hpre d hd)⟩
    · rintro ⟨pre, post, heq, hs, hpre⟩
      refine ⟨pre, c, post, heq, by rw [hs]; rfl, fun y hy => ?_⟩
      rw [Option.map_eq_none']
      exact hpre y hy
  · intro ct s
    unfold sigSchemeForCert
    exact findSome_eq_some_split _ _ _
  · unfold s2n_choose_tls13_sig_scheme_and_set_cert
    rw [List.findSome?_eq_none_iff]
    intro c hc
    rw [Option.map_eq_none']
    rfl

/-- Witness for c2_tls13_cert_selection: the RSA+ECDSA server given client
list [ECDSA_SHA256] commits the ECDSA cert with scheme ECDSA_SHA256. -/
theorem c2_tls13_cert_selection_witness :
    s2n_choose_tls13_sig_scheme_and_set_cert s2n_supported_sig_scheme_pref_list
      [⟨0, .rsa⟩, ⟨1, .ecdsa⟩] [TLS_SIGNATURE_SCHEME_ECDSA_SHA256]
      = some (⟨1, .ecdsa⟩, ⟨TLS_SIGNATURE_SCHEME_ECDSA_SHA256, .ecdsa⟩) :=
  (c2_tls13_cert_selection s2n_supported_sig_scheme_pref_list
    [⟨0, .rsa⟩, ⟨1, .ecdsa⟩] [TLS_SIGNATURE_SCHEME_ECDSA_SHA256]).2.2.2.2

/-! ## CBC record write (tls/s2n_record_write.c is absent from the source
tree; modelled from the spec §4.D and pinned by the formulas asserted in
src/tests/unit/s2n_aes_test.c) -/

/-- s2n protocol-version encoding: the record header version bytes are
v / 10 and v % 10 (TLS 1.1 = 32 → bytes 3, 2). -/
def S2N_TLS11 : Nat := 32

def TLS_APPLICATION_DATA : Nat := 23

/-- Modelled from the spec (§4.D): records are bounded by 2^14. -/
def S2N_MAXIMUM_FRAGMENT_LENGTH : Nat := 16384

/-- The observables of one s2n_record_write call. -/
structure RecordWriteResult where
  bytes_written : Nat
  fragment_length : Nat
  header : List Nat
  deriving DecidableEq, Repr

/-- Modelled from the spec (§4.D Writing) and the AES unit test: one
s2n_record_write call for a CBC suite with explicit IV (TLS 1.1 and later).
The plaintext consumed is capped at the block-aligned fragment budget minus
MAC length, IV length and one padding byte; the ciphertext fragment is
payload + 1 + MAC + IV rounded up to the block size; the 5-byte header is
type || version/10 || version%10 || length-hi || length-lo. -/
def s2n_record_write_cbc (maxFrag macLen blockSize ivLen : Nat)
    (protocolVersion contentType payloadLen : Nat) : RecordWriteResult :=
  let maxAligned := maxFrag - maxFrag % blockSize
  let cap := maxAligned - macLen - ivLen - 1
  let w := min payloadLen cap
  let pre := w + 1 + macLen + ivLen
  let frag := if pre % blockSize = 0 then pre else pre + (blockSize - pre % blockSize)
  { bytes_written := w, fragment_length := frag,
    header := [contentType, protocolVersion / 10, protocolVersion % 10,
               frag / 256, frag % 256] }

/-- Claim C3 counterexample: a one-byte application-data record under
AES-128-CBC-SHA1 at TLS 1.1 has the 48-byte fragment and 0x0030 length the
claim states, but its header version bytes are (3, 2) — wire version 0x0302,
which is TLS 1.1 and what the unit test asserts
(s2n_aes_test.c lines 81-82) — not the claimed 0x0301. -/
theorem c3_counterexample :
    (s2n_record_write_cbc S2N_MAXIMUM_FRAGMENT_LENGTH 20 16 16 S2N_TLS11
        TLS_APPLICATION_DATA 1).header = [23, 3, 2, 0, 48]
    ∧ (s2n_record_write_cbc S2N_MAXIMUM_FRAGMENT_LENGTH 20 16 16 S2N_TLS11
        TLS_APPLICATION_DATA 1).header ≠ [23, 3, 1, 0, 48] := by
  decide

/-- Claim C3 (amended): writing a one-byte application-data record under
AES-128-CBC with HMAC-SHA1 at TLS 1.1 produces a ciphertext fragment of
exactly 48 bytes (1 + 1 + 20 + 16 rounded up to the 16-byte block), and the
record header encodes type=0x17, version=0x0302, length=0x0030. -/
theorem c3_record_write_one_byte_amended :
    (s2n_record_write_cbc S2N_MAXIMUM_FRAGMENT_LENGTH 20 16 16 S2N_TLS11
        TLS_APPLICATION_DATA 1).bytes_written = 1
    ∧ (s2n_record_write_cbc S2N_MAXIMUM_FRAGMENT_LENGTH 20 16 16 S2N_TLS11
        TLS_APPLICATION_DATA 1).fragment_length = 48
    ∧ (s2n_record_write_cbc S2N_MAXIMUM_FRAGMENT_LENGTH 20 16 16 S2N_TLS11
        TLS_APPLICATION_DATA 1).header = [23, 3, 2, 0, 48] := by
  decide

/-- Claim C4: a single CBC record write consumes at most the block-aligned
fragment budget minus MAC length, IV length and one padding byte, returning
exactly the bytes consumed (the full payload when it is below that bound);
with a payload of S2N_MAXIMUM_FRAGMENT_LENGTH bytes under AES-256-CBC-SHA at
TLS 1.1 the first call writes max_aligned_fragment - 20 - 16 - 1 bytes and a
second call drains the remainder. -/
theorem c4_record_write_fragment_budget (maxFrag payloadLen : Nat)
    (hmf : 256 ≤ maxFrag) :
    (s2n_record_write_cbc maxFrag 20 16 16 S2N_TLS11 TLS_APPLICATION_DATA
        payloadLen).bytes_written ≤ (maxFrag - maxFrag % 16) - 20 - 16 - 1
    ∧ (s2n_record_write_cbc maxFrag 20 16 16 S2N_TLS11 TLS_APPLICATION_DATA
        payloadLen).bytes_written
      = min payloadLen ((maxFrag - maxFrag % 16) - 20 - 16 - 1)
    ∧ (payloadLen < (maxFrag - maxFrag % 16) - 20 - 16 - 1 →
        (s2n_record_write_cbc maxFrag 20 16 16 S2N_TLS11 TLS_APPLICATION_DATA
          payloadLen).bytes_written = payloadLen)
    ∧ (payloadLen = maxFrag →
        (s2n_record_write_cbc maxFrag 20 16 16 S2N_TLS11 TLS_APPLICATION_DATA
          payloadLen).bytes_written = (maxFrag - maxFrag % 16) - 20 - 16 - 1
        ∧ (s2n_record_write_cbc maxFrag 20 16 16 S2N_TLS11 TLS_APPLICATION_DATA
            (payloadLen - (s2n_record_write_cbc maxFrag 20 16 16 S2N_TLS11
              TLS_APPLICATION_DATA payloadLen).bytes_written)).bytes_written
          = payloadLen - (s2n_record_write_cbc maxFrag 20 16 16 S2N_TLS11
              TLS_APPLICATION_DATA payloadLen).bytes_written) := by
  have hbw : ∀ p, (s2n_record_write_cbc maxFrag 20 16 16 S2N_TLS11
      TLS_APPLICATION_DATA p).bytes_written
      = min p ((maxFrag - maxFrag % 16) - 20 - 16 - 1) := fun p => rfl
  refine ⟨?_, hbw payloadLen, ?_, ?_⟩
  · rw [hbw]
    omega
  · intro h
    rw [hbw]
    omega
  · intro hp
    subst hp
    simp only [hbw]
    omega

/-- Witness for c4_record_write_fragment_budget at maxFrag = 2^14 with a
full-size payload: the first call writes 16347 = 16384 - 20 - 16 - 1 bytes
and the second call drains the remaining 37. -/
theorem c4_record_write_fragment_budget_witness :
    (256 ≤ S2N_MAXIMUM_FRAGMENT_LENGTH)
    ∧ (s2n_record_write_cbc S2N_MAXIMUM_FRAGMENT_LENGTH 20 16 16 S2N_TLS11
        TLS_APPLICATION_DATA S2N_MAXIMUM_FRAGMENT_LENGTH).bytes_written = 16347
    ∧ (s2n_record_write_cbc S2N_MAXIMUM_FRAGMENT_LENGTH 20 16 16 S2N_TLS11
        TLS_APPLICATION_DATA 37).bytes_written = 37 :=
  ⟨by decide,
   by
    have h := (c4_record_write_fragment_budget S2N_MAXIMUM_FRAGMENT_LENGTH
      S2N_MAXIMUM_FRAGMENT_LENGTH (by decide)).2.2.2 rfl
    exact h.1,
   by
    have h := (c4_record_write_fragment_budget S2N_MAXIMUM_FRAGMENT_LENGTH
      S2N_MAXIMUM_FRAGMENT_LENGTH (by decide)).2.2.2 rfl
    exact h.2⟩

/-! ## Stuffer copy (stuffer/s2n_stuffer.c is absent from the source tree;
modelled from the spec §4.A and the CBMC harness
src/tests/cbmc/proofs/s2n_stuffer_copy/s2n_stuffer_copy_harness.c, whose
assertions hold regardless of whether the copy succeeded) -/

structure Stuffer where
  blob : List Nat
  read_cursor : Nat
  write_cursor : Nat
  high_water_mark : Nat
  alloced : Bool
  growable : Bool
  tainted : Bool
  deriving DecidableEq, Repr

/-- s2n_stuffer_skip_read: fail with STUFFER_OUT_OF_DATA when fewer than n
unread bytes remain, else advance the read cursor. -/
def s2n_stuffer_skip_read (s : Stuffer) (n : Nat) : Option Stuffer :=
  if s.read_cursor + n ≤ s.write_cursor then
    some { s with read_cursor := s.read_cursor + n }
  else none

/-- s2n_stuffer_skip_write: reserve space — growing a growable, untainted
stuffer by appending zero bytes, failing otherwise — then advance the write
cursor and raise the high-water mark. -/
def s2n_stuffer_skip_write (s : Stuffer) (n : Nat) : Option Stuffer :=
  if s.write_cursor + n ≤ s.blob.length then
    some { s with write_cursor := s.write_cursor + n,
                  high_water_mark := max s.high_water_mark (s.write_cursor + n) }
  else if s.growable ∧ ¬ s.tainted then
    some { s with
           blob := s.blob ++ List.replicate (s.write_cursor + n - s.blob.length) 0,
           write_cursor := s.write_cursor + n,
           high_water_mark := max s.high_water_mark (s.write_cursor + n) }
  else none

/-- Overwrite the region [pos, pos + bytes.length) of a byte list. -/
def writeRegion (l : List Nat) (pos : Nat) (bytes : List Nat) : List Nat :=
  l.take pos ++ bytes ++ l.drop (pos + bytes.length)

/-- Modelled from the spec (§4.A copy): s2n_stuffer_copy validates and
advances the source read cursor, then reserves and advances the destination
write cursor, then copies the n bytes.  A failing step returns immediately
(GUARD), leaving the mutations of the earlier steps in place.  Returns the
success flag and the final states of source and destination. -/
def s2n_stuffer_copy (f t : Stuffer) (n : Nat) : Bool × Stuffer × Stuffer :=
  match s2n_stuffer_skip_read f n with
  | none => (false, f, t)
  | some f2 =>
    match s2n_stuffer_skip_write t n with
    | none => (false, f2, t)
    | some t2 =>
      let bytes := (f2.blob.drop (f2.read_cursor - n)).take n
      (true, f2, { t2 with blob := writeRegion t2.blob (t2.write_cursor - n) bytes })

/-- Claim C5 counterexample: with one readable byte in the source and a full,
non-growable destination, the copy fails, yet the source read cursor has
advanced by n — the source read is validated and consumed before the
destination write is attempted, so "read_cursor advanced by n iff the copy
succeeded" does not hold. -/
theorem c5_counterexample :
    (s2n_stuffer_copy ⟨[7], 0, 1, 1, false, false, false⟩
        ⟨[], 0, 0, 0, false, false, false⟩ 1).1 = false
    ∧ (s2n_stuffer_copy ⟨[7], 0, 1, 1, false, false, false⟩
        ⟨[], 0, 0, 0, false, false, false⟩ 1).2.1.read_cursor = 0 + 1 := by
  decide

/-- Claim C5 (amended): after copy(src, dst, n), every byte of src's blob and
every metadata field of src except read_cursor is unchanged regardless of the
outcome; on success src.read_cursor has advanced by exactly n (and n bytes
were available); on failure the read cursor either advanced by n (source read
succeeded, destination write failed) or is unchanged. -/
theorem c5_stuffer_copy_amended (f t : Stuffer) (n : Nat) :
    ((s2n_stuffer_copy f t n).2.1.blob = f.blob)
    ∧ ((s2n_stuffer_copy f t n).2.1.write_cursor = f.write_cursor)
    ∧ ((s2n_stuffer_copy f t n).2.1.high_water_mark = f.high_water_mark)
    ∧ ((s2n_stuffer_copy f t n).2.1.alloced = f.alloced)
    ∧ ((s2n_stuffer_copy f t n).2.1.growable = f.growable)
    ∧ ((s2n_stuffer_copy f t n).2.1.tainted = f.tainted)
    ∧ ((s2n_stuffer_copy f t n).1 = true →
        (s2n_stuffer_copy f t n).2.1.read_cursor = f.read_cursor + n)
    ∧ ((s2n_stuffer_copy f t n).2.1.read_cursor = f.read_cursor + n
        ∨ ((s2n_stuffer_copy f t n).2.1.read_cursor = f.read_cursor
            ∧ (s2n_stuffer_copy f t n).1 = false))
    ∧ ((s2n_stuffer_copy f t n).1 = true → f.read_cursor + n ≤ f.write_cursor) := by
  unfold s2n_stuffer_copy s2n_stuffer_skip_read s2n_stuffer_skip_write
  by_cases h1 : f.read_cursor + n ≤ f.write_cursor <;>
    by_cases h2 : t.write_cursor + n ≤ t.blob.length <;>
      by_cases h3 : t.growable = true ∧ t.tainted = false <;>
        simp [h1, h2, h3]

/-- Witness for c5_stuffer_copy_amended on a successful one-byte copy. -/
theorem c5_stuffer_copy_amended_witness :
    (s2n_stuffer_copy ⟨[7], 0, 1, 1, false, false, false⟩
        ⟨[0], 0, 0, 0, false, false, false⟩ 1).1 = true
    ∧ (s2n_stuffer_copy ⟨[7], 0, 1, 1, false, false, false⟩
        ⟨[0], 0, 0, 0, false, false, false⟩ 1).2.1.read_cursor = 0 + 1 :=
  ⟨by decide,
   (c5_stuffer_copy_amended ⟨[7], 0, 1, 1, false, false, false⟩
      ⟨[0], 0, 0, 0, false, false, false⟩ 1).2.2.2.2.2.2.1 (by decide)⟩

end S2N
